import Mathlib

/-!
Verification of the `youtube_server` proxy-gateway variants.

The repository is a family of near-duplicate Express servers.  Each handler is
embedded as a pure Lean function that mirrors the handler's control flow up to
the point where it would call an upstream service (YouTube search fetch,
`ytdl.getInfo`, the SQL store).  Early exits are encoded as `Sum.inl status`
(an HTTP response produced before any upstream call); `Sum.inr payload`
means the handler proceeds to the upstream call with `payload`.

JavaScript conventions used throughout the embedding:
  * a request field that may be `undefined` is an `Option`;
  * JS truthiness on strings (`!s`) is `strFalsy` (`undefined` or `""`);
  * `x || y` on strings is `jsOrStr`; string interpolation of `undefined`
    yields the literal string `"undefined"` (`jsStringOfOpt`).
-/

/-- JS falsiness of a possibly-undefined string: `!s` is true for `undefined`
and for the empty string. -/
def strFalsy : Option String → Bool
  | none => true
  | some s => s = ""

/-- JS `a || b` on possibly-undefined strings: returns `a` unless `a` is
`undefined` or `""`. -/
def jsOrStr : Option String → Option String → Option String
  | some s, b => if s = "" then b else some s
  | none, b => b

/-- JS string coercion of a possibly-undefined string (as done by
`url.searchParams.set('q', query)` when `query` is `undefined`). -/
def jsStringOfOpt : Option String → String
  | none => "undefined"
  | some s => s

/-- JS `s || null` on an optional string field: empty string collapses to null. -/
def jsOptStr : Option String → Option String
  | none => none
  | some s => if s = "" then none else some s

/-- JS `n || null` on an optional numeric field: `0` collapses to null. -/
def jsOptNat : Option Nat → Option Nat
  | none => none
  | some n => if n = 0 then none else some n

/-- Executable model of JS `String.prototype.trim()` (and of the trimmed name
the SQL layer sees): drops leading and trailing whitespace.  `String.trim`
itself is defined through well-founded recursion and does not reduce inside
the kernel; this structural version performs the same trimming. -/
def jsTrim (s : String) : String :=
  String.mk (((s.toList.dropWhile Char.isWhitespace).reverse.dropWhile
    Char.isWhitespace).reverse)

/-- Executable model of SQL `LOWER` / JS `toLowerCase` as used for the
case-insensitive folder-name comparison (same caveat as `jsTrim` about
`String.toLower`). -/
def jsToLower (s : String) : String :=
  String.mk (s.toList.map Char.toLower)

/-- The fixed expected hash constant `VALID_MD5_HASH` shared by all variants
(`server.js` line 22, `api/index.js` line 22, `part_002` line 18). -/
def VALID_MD5_HASH : String := "6bb8c2f529084cdbc037e4b801cc2ab4"

/-- `server.js` `GET /search/:hash` (lines 62–103), up to the upstream fetch.
Control flow: missing/empty `q` → 400; empty hash → 400;
`validateAndGetApiKey` (hash mismatch, or missing `YOUTUBE_API_KEY` env) → 403;
otherwise the handler proceeds to the YouTube fetch with the API key
(`Sum.inr`). -/
def serverSearchGate (apiKeyEnv : Option String) (hash : String)
    (q : Option String) : Sum Nat String :=
  if strFalsy q then Sum.inl 400
  else if hash = "" then Sum.inl 400
  else if hash ≠ VALID_MD5_HASH then Sum.inl 403
  else match apiKeyEnv with
    | none => Sum.inl 403
    | some key => Sum.inr key

/-- `api/index.js` `api.post('/search')` (variant B, lines 464–481), up to the
upstream fetch.  Control flow: `md5Hash !== '6bb8…'` → 403; missing or
trim-empty query → 400; missing `YOUTUBE_API_KEY` env → 500; otherwise the
handler proceeds to the YouTube fetch. -/
def apiSearchGate (apiKeyEnv : Option String) (md5Hash : Option String)
    (q : Option String) : Sum Nat String :=
  if md5Hash ≠ some VALID_MD5_HASH then Sum.inl 403
  else match q with
    | none => Sum.inl 400
    | some s =>
      if jsTrim s = "" then Sum.inl 400
      else match apiKeyEnv with
        | none => Sum.inl 500
        | some key => Sum.inr key

/-- `server.js` `GET /download/:hash/:videoId` (lines 134–150), up to
`ytdl.getInfo`.  Control flow: `!hash || hash !== VALID_MD5_HASH` → 403;
empty videoId → 400; otherwise the handler proceeds to `ytdl.getInfo`
(`Sum.inr videoId`). -/
def serverDownloadGate (hash videoId : String) : Sum Nat String :=
  if hash = "" ∨ hash ≠ VALID_MD5_HASH then Sum.inl 403
  else if videoId = "" then Sum.inl 400
  else Sum.inr videoId

/-- `part_002` `GET /search/:hash` (lines 35–66), up to the upstream fetch.
There is no query check: `validateAndGetApiKey(hash)` throws on a mismatch or
a missing env key and the outer catch answers 500; otherwise the handler
builds the URL with `q` coerced to a string (missing query becomes the literal
`"undefined"`) and performs the fetch (`Sum.inr (key, coerced query)`). -/
def part002SearchGate (apiKeyEnv : Option String) (hash : String)
    (q : Option String) : Sum Nat (String × String) :=
  if hash ≠ VALID_MD5_HASH then Sum.inl 500
  else match apiKeyEnv with
    | none => Sum.inl 500
    | some key => Sum.inr (key, jsStringOfOpt q)

/-- An upstream media format as consumed by the download handlers: the
`audioBitrate` field may be absent (`undefined` in JS), plus the direct URL.
The handlers receive the list already filtered to audio-only by the upstream
library (`ytdl.filterFormats(info.formats, 'audioonly')`). -/
structure Format where
  audioBitrate : Option Nat
  url : String
deriving DecidableEq, Repr

/-- JS truthiness of `format.audioBitrate` (the `.filter(format =>
format.audioBitrate)` predicate in `server.js` line 168): present and
non-zero. -/
def hasTruthyBitrate (f : Format) : Bool :=
  match f.audioBitrate with
  | none => false
  | some n => n ≠ 0

/-- `format.audioBitrate || 0`, as used by the sort comparator. -/
def bitrateOr0 (f : Format) : Nat := f.audioBitrate.getD 0

/-- Stable insertion into a list sorted by descending `bitrateOr0`: the
inserted (earlier-encountered) element goes before every element of equal or
smaller bitrate.  Together with `sortDescBitrate` this realizes the stable
descending sort `Array.prototype.sort((a, b) => (b.audioBitrate || 0) -
(a.audioBitrate || 0))` of `server.js` line 169 (ES2019 sort is stable). -/
def insertDesc (f : Format) : List Format → List Format
  | [] => [f]
  | g :: gs => if bitrateOr0 g ≤ bitrateOr0 f then f :: g :: gs
               else g :: insertDesc f gs

/-- Stable sort by descending `bitrateOr0` (see `insertDesc`). -/
def sortDescBitrate : List Format → List Format
  | [] => []
  | f :: fs => insertDesc f (sortDescBitrate fs)

/-- `server.js` lines 167–169 best-audio selection:
`audioFormats.filter(f => f.audioBitrate).sort(descending)[0] ||
audioFormats[0]`. -/
def serverBestAudio (audioFormats : List Format) : Option Format :=
  match (sortDescBitrate (audioFormats.filter hasTruthyBitrate)).head? with
  | some f => some f
  | none => audioFormats.head?

/-- Selection policy in the spec's words ("best audio" = maximum numeric audio
bitrate, first encountered on a tie), to be compared with the sort-based
`serverBestAudio` translated from the source: returns the first element
attaining the maximum `bitrateOr0`. -/
def firstMaxFmt : List Format → Option Format
  | [] => none
  | f :: fs =>
    match firstMaxFmt fs with
    | none => some f
    | some g => if bitrateOr0 g ≤ bitrateOr0 f then some f else some g

/-- `api/index.js` legacy `GET /download/:hash/:videoId` (variant A, line 163)
and `part_002` line 74: `ytdl.filterFormats(info.formats, 'audioonly')[0]` —
always the first audio-only format. -/
def legacyDownloadSelect (audioFormats : List Format) : Option Format :=
  audioFormats.head?

/-- `server.js` `GET /download/:hash/:videoId` resolution after `ytdl.getInfo`
(lines 159–186): empty audio-only list → 404, otherwise the best-audio
selection is returned (the `none` branch is unreachable for non-empty input;
in JS an undefined access would be caught as a 500). -/
def serverDownloadResolve (audioFormats : List Format) : Sum Nat Format :=
  if audioFormats.length = 0 then Sum.inl 404
  else match serverBestAudio audioFormats with
    | some f => Sum.inr f
    | none => Sum.inl 500

/-- `part_002` legacy `GET /download/:hash/:videoId` resolution (lines 68–84,
same shape as `api/index.js` lines 157–173): no empty-formats check; with no
audio-only format, `audio.url` throws a TypeError on `undefined` which the
catch maps to a 500 response. -/
def legacyDownloadResolve (audioFormats : List Format) : Sum Nat Format :=
  match audioFormats.head? with
  | some f => Sum.inr f
  | none => Sum.inl 500

/-- A thumbnail variant of an upstream search item (`snippet.thumbnails.*`);
each variant, when present, carries a URL. -/
structure Thumb where
  url : String
deriving DecidableEq, Repr

/-- The `snippet` of an upstream search item; the `medium` and `default`
thumbnail variants may each be absent. -/
structure Snippet where
  title : String
  channelTitle : String
  publishedAt : String
  thumbMedium : Option Thumb
  thumbDefault : Option Thumb
deriving DecidableEq, Repr

/-- An upstream search result item (`data.items[i]`). -/
structure SearchItem where
  videoId : String
  snippet : Snippet
deriving DecidableEq, Repr

/-- The `server.js` search response entry shape (lines 106–112). -/
structure VideoSummary where
  videoId : String
  title : String
  channel : String
  thumbnail : Option String
  publishedAt : String
deriving DecidableEq, Repr

/-- `server.js` lines 106–112 item mapping: `thumbnail:
item.snippet.thumbnails.medium?.url || item.snippet.thumbnails.default?.url`. -/
def serverMapItem (it : SearchItem) : VideoSummary :=
  { videoId := it.videoId
    title := it.snippet.title
    channel := it.snippet.channelTitle
    thumbnail := jsOrStr (it.snippet.thumbMedium.map Thumb.url)
      (it.snippet.thumbDefault.map Thumb.url)
    publishedAt := it.snippet.publishedAt }

/-- `server.js` line 106: `data.items ? data.items.map(...) : []`. -/
def serverSearchVideos (items : Option (List SearchItem)) : List VideoSummary :=
  match items with
  | none => []
  | some its => its.map serverMapItem

/-- The `part_000` `POST /api/search` response entry shape (lines 66–71). -/
structure Part000Video where
  id : String
  title : String
  channel : String
  thumbnail : String
deriving DecidableEq, Repr

/-- `part_000` lines 66–71 item mapping: `thumbnail:
item.snippet.thumbnails.default.url` — always the default variant, with no
medium preference; an absent default thumbnail throws a TypeError (`none`),
which the handler's catch turns into a 500 response. -/
def part000MapItem (it : SearchItem) : Option Part000Video :=
  match it.snippet.thumbDefault with
  | none => none
  | some t => some
      { id := it.videoId
        title := it.snippet.title
        channel := it.snippet.channelTitle
        thumbnail := t.url }

/-- `part_000` whole-result mapping: the first item throwing aborts the map. -/
def part000SearchVideos (items : List SearchItem) : Option (List Part000Video) :=
  items.mapM part000MapItem

/-- A row of the `folders` table (`id SERIAL PRIMARY KEY, name VARCHAR(100)
NOT NULL UNIQUE`). -/
structure Folder where
  id : Nat
  name : String
deriving DecidableEq, Repr

/-- A row of the `favorites` table (`video_id UNIQUE, title, channel,
thumbnail, folder_id REFERENCES folders(id) ON DELETE SET NULL`). -/
structure Favorite where
  videoId : String
  title : String
  channel : String
  thumbnail : Option String
  folderId : Option Nat
deriving DecidableEq, Repr

/-- The relational store of the DB-backed variants. -/
structure DB where
  folders : List Folder
  favorites : List Favorite
deriving DecidableEq, Repr

/-- First statement of `api.delete('/folders/:id')` (`api/index.js` line 336):
`UPDATE favorites SET folder_id = NULL WHERE folder_id = ${id}`. -/
def detachFavorites (db : DB) (fid : Nat) : DB :=
  { db with favorites := db.favorites.map fun f =>
      if f.folderId = some fid then { f with folderId := none } else f }

/-- Second statement of `api.delete('/folders/:id')` (`api/index.js` line
339): `DELETE FROM folders WHERE id = ${id}`. -/
def removeFolder (db : DB) (fid : Nat) : DB :=
  { db with folders := db.folders.filter fun fo => fo.id ≠ fid }

/-- The complete `api.delete('/folders/:id')` handler effect (`api/index.js`
lines 330–349): the two statements run in sequence with no enclosing
transaction (`sql.begin` is never used), so a failure between them leaves
exactly the `detachFavorites` state. -/
def deleteFolderFull (db : DB) (fid : Nat) : DB :=
  removeFolder (detachFavorites db fid) fid

/-- Referential integrity of the store: every non-null `folderId` of a
Favorite names an existing Folder. -/
def noDangling (db : DB) : Prop :=
  ∀ fav ∈ db.favorites, ∀ fid : Nat, fav.folderId = some fid →
    ∃ fo ∈ db.folders, fo.id = fid

/-- `api.post('/favorites')` upsert of variant B (`api/index.js` lines
389–399): `ON CONFLICT (video_id) DO UPDATE SET folder_id, title, channel,
thumbnail`. -/
def upsertFavoriteB (favs : List Favorite) (f : Favorite) : List Favorite :=
  if favs.any (fun g => g.videoId == f.videoId) then
    favs.map fun g =>
      if g.videoId = f.videoId then
        { g with title := f.title, channel := f.channel,
                 thumbnail := f.thumbnail, folderId := f.folderId }
      else g
  else favs ++ [f]

/-- `api.post('/favorites')` upsert of the `part_001` variant (lines 117–134):
`ON CONFLICT (video_id) DO UPDATE SET folder_id = EXCLUDED.folder_id` — only
the folder assignment is refreshed; stored title/channel/thumbnail keep their
old values. -/
def upsertFavorite001 (favs : List Favorite) (f : Favorite) : List Favorite :=
  if favs.any (fun g => g.videoId == f.videoId) then
    favs.map fun g =>
      if g.videoId = f.videoId then { g with folderId := f.folderId } else g
  else favs ++ [f]

/-- `api.post('/folders')` of variant B (`api/index.js` lines 273–297):
missing or trim-empty name → 400; the plain `INSERT` relies on the
case-sensitive `UNIQUE` constraint on `name`, whose violation (SQLSTATE 23505,
an exact-name duplicate) is mapped to 409; otherwise the row is inserted. -/
def createFolderB (folders : List Folder) (newId : Nat)
    (name : Option String) : Sum Nat (List Folder) :=
  match name with
  | none => Sum.inl 400
  | some n =>
    if jsTrim n = "" then Sum.inl 400
    else if folders.any (fun fo => fo.name == jsTrim n) then Sum.inl 409
    else Sum.inr (folders ++ [⟨newId, jsTrim n⟩])

/-- `app.post('/api/folders')` of variant C (`api/index.js` lines 633–670):
missing or trim-empty name → 400; an explicit `SELECT … WHERE LOWER(name) =
LOWER(${trimmedName})` duplicate check → 409; otherwise the row is inserted. -/
def createFolderC (folders : List Folder) (newId : Nat)
    (name : Option String) : Sum Nat (List Folder) :=
  match name with
  | none => Sum.inl 400
  | some n =>
    if jsTrim n = "" then Sum.inl 400
    else if folders.any (fun fo => jsToLower fo.name == jsToLower (jsTrim n)) then
      Sum.inl 409
    else Sum.inr (folders ++ [⟨newId, jsTrim n⟩])

/-- `app.put('/api/folders/:id')` of variant C (`api/index.js` lines 672–722):
missing/empty name → 400; unknown folder id → 404; a `LOWER(name)` duplicate
check excluding the folder itself → 409; otherwise the row is renamed. -/
def renameFolderC (folders : List Folder) (fid : Nat)
    (name : Option String) : Sum Nat (List Folder) :=
  match name with
  | none => Sum.inl 400
  | some n =>
    if jsTrim n = "" then Sum.inl 400
    else if !(folders.any fun fo => fo.id == fid) then Sum.inl 404
    else if folders.any (fun fo =>
        jsToLower fo.name == jsToLower (jsTrim n) && fo.id != fid) then Sum.inl 409
    else Sum.inr (folders.map fun fo =>
      if fo.id = fid then { fo with name := jsTrim n } else fo)

/-- `api.put('/folders/:id')` of variant B (`api/index.js` lines 299–328):
missing/empty name → 400; the plain `UPDATE` hits the case-sensitive `UNIQUE`
constraint when another row has the exact same name (23505 → 409); an update
matching no row → 404. -/
def renameFolderB (folders : List Folder) (fid : Nat)
    (name : Option String) : Sum Nat (List Folder) :=
  match name with
  | none => Sum.inl 400
  | some n =>
    if jsTrim n = "" then Sum.inl 400
    else if folders.any (fun fo => fo.name == jsTrim n && fo.id != fid) then
      Sum.inl 409
    else if !(folders.any fun fo => fo.id == fid) then Sum.inl 404
    else Sum.inr (folders.map fun fo =>
      if fo.id = fid then { fo with name := jsTrim n } else fo)

/-- Whether a character may occur in a YouTube video id. -/
def isIdChar (c : Char) : Bool := c.isAlphanum || c == '-' || c == '_'

/-- Modelled from the external `@distube/ytdl-core` library (out of scope of
the repository): `ytdl.validateID` tests the id against the regular
expression `^[a-zA-Z0-9-_]{11}$` — exactly 11 characters drawn from letters,
digits, dash and underscore. -/
def validateID (s : String) : Bool :=
  s.length = 11 && s.toList.all isIdChar

/-- `api.post('/favorites')` of variant B (`api/index.js` lines 376–406):
missing id/title/channel → 400; `!ytdl.validateID(id)` → 400 before any SQL
statement; otherwise the upsert runs (`thumbnail || null`,
`folderId || null`). -/
def addFavoriteB (favs : List Favorite)
    (id title channel thumbnail : Option String)
    (folderId : Option Nat) : Sum Nat (List Favorite) :=
  if strFalsy id || strFalsy title || strFalsy channel then Sum.inl 400
  else if !validateID (jsStringOfOpt id) then Sum.inl 400
  else Sum.inr (upsertFavoriteB favs
    ⟨jsStringOfOpt id, jsStringOfOpt title, jsStringOfOpt channel,
     jsOptStr thumbnail, jsOptNat folderId⟩)

/-- The write operations the variant-B server (`api/index.js`, the `/api`
router) exposes over the store. -/
inductive OpB where
  | createFolder (newId : Nat) (name : Option String)
  | renameFolder (fid : Nat) (name : Option String)
  | deleteFolder (fid : Nat)
  | addFavorite (id title channel thumbnail : Option String)
      (folderId : Option Nat)
  | deleteFavorite (videoId : String)
deriving DecidableEq, Repr

/-- One request against the variant-B store: a handler that answers an error
leaves the store unchanged; a successful handler commits its rows.  The
folder delete always runs both of its statements (`api/index.js` lines
330–344: the favorites update precedes the existence check). -/
def applyOp (db : DB) : OpB → DB
  | .createFolder newId name =>
    match createFolderB db.folders newId name with
    | Sum.inl _ => db
    | Sum.inr fs => { db with folders := fs }
  | .renameFolder fid name =>
    match renameFolderB db.folders fid name with
    | Sum.inl _ => db
    | Sum.inr fs => { db with folders := fs }
  | .deleteFolder fid => deleteFolderFull db fid
  | .addFavorite id title channel thumbnail folderId =>
    match addFavoriteB db.favorites id title channel thumbnail folderId with
    | Sum.inl _ => db
    | Sum.inr favs => { db with favorites := favs }
  | .deleteFavorite videoId =>
    { db with favorites := db.favorites.filter fun f => f.videoId ≠ videoId }

/-- The store as created by `CREATE TABLE IF NOT EXISTS` on first start. -/
def emptyDB : DB := ⟨[], []⟩

/-- The store after a sequence of variant-B requests from a fresh start. -/
def runOps (ops : List OpB) : DB := ops.foldl applyOp emptyDB

/-- Every favorite row carries a syntactically valid YouTube video id. -/
def favsValid (favs : List Favorite) : Prop :=
  ∀ f ∈ favs, validateID f.videoId = true

/-- The events that can occur while `api.get('/stream/:videoId')` is piping
audio to the client: an error or the natural end of the upstream ytdl stream,
or the client's connection closing mid-stream. -/
inductive StreamEvent where
  | upstreamError
  | upstreamEnd
  | clientClosed
deriving DecidableEq, Repr

/-- The reactions the stream handler's registered callbacks can perform. -/
inductive StreamAction where
  | respondErrorIfHeadersUnsent
  | logStreamEnd
  | destroyUpstream
deriving DecidableEq, Repr

/-- The listeners registered by `api.get('/stream/:videoId')` (`api/index.js`
lines 425–461): `audioStream.on('error', …)` and `audioStream.on('end', …)`
only.  The handler registers nothing on the response's close event and never
calls `destroy` on the ytdl stream, and `audioStream.pipe(res)` adds no
listener that would do so. -/
def streamHandlerListeners : List (StreamEvent × StreamAction) :=
  [(StreamEvent.upstreamError, StreamAction.respondErrorIfHeadersUnsent),
   (StreamEvent.upstreamEnd, StreamAction.logStreamEnd)]

/-- Observable state of one streaming request: whether the upstream ytdl
fetch (and its network handle) is still open, and whether response headers
have been sent. -/
structure StreamState where
  upstreamOpen : Bool
  headersSent : Bool
deriving DecidableEq, Repr

/-- Effect of one callback action: only `destroyUpstream` releases the
upstream stream. -/
def runAction (s : StreamState) : StreamAction → StreamState
  | StreamAction.destroyUpstream => { s with upstreamOpen := false }
  | StreamAction.respondErrorIfHeadersUnsent => s
  | StreamAction.logStreamEnd => s

/-- Modelled from Node stream semantics (an external collaborator of the
repository): dispatching an event runs exactly the callbacks the handler
registered for that event; in particular `readable.pipe(writable)` does not
destroy its source when the destination closes, so a client disconnect
releases the upstream handle only if a registered `clientClosed` callback
destroys it. -/
def dispatch (s : StreamState) (e : StreamEvent) : StreamState :=
  (streamHandlerListeners.filter fun p => p.1 == e).foldl
    (fun st p => runAction st p.2) s

/-- C1: for every supplied access token different from the fixed expected hash
value, the Search and Audio Resolution handlers answer with the invalid-hash
error (status 403) before any upstream call: `server.js` search (given a
non-empty query, whose check precedes the gate), the `api.post('/search')`
handler (unconditionally, the gate runs first), and the `server.js` download
handler (unconditionally).  `Sum.inl` is a response produced with no upstream
call.  A supplied token is a non-empty `:hash` path segment (an empty segment
never matches the Express route; the handler's own `!hash` guard answers 400). -/
theorem C1_access_gate_rejects_bad_token :
    (∀ (apiKeyEnv : Option String) (hash : String) (q : Option String),
      strFalsy q = false → hash ≠ "" → hash ≠ VALID_MD5_HASH →
        serverSearchGate apiKeyEnv hash q = Sum.inl 403)
    ∧ (∀ (apiKeyEnv : Option String) (md5Hash : Option String) (q : Option String),
      md5Hash ≠ some VALID_MD5_HASH →
        apiSearchGate apiKeyEnv md5Hash q = Sum.inl 403)
    ∧ (∀ (hash videoId : String), hash ≠ VALID_MD5_HASH →
        serverDownloadGate hash videoId = Sum.inl 403) := by
  refine ⟨?_, ?_, ?_⟩
  · intro apiKeyEnv hash q hq hempty hhash
    unfold serverSearchGate
    rw [hq]
    simp only [Bool.false_eq_true, if_false]
    rw [if_neg hempty, if_pos hhash]
  · intro apiKeyEnv md5Hash q hhash
    unfold apiSearchGate
    rw [if_pos hhash]
  · intro hash videoId hhash
    unfold serverDownloadGate
    rw [if_pos (Or.inr hhash)]

/-- Witness for C1 at concrete inputs: token `"deadbeef"` differs from the
expected hash and every gate answers 403. -/
theorem C1_access_gate_rejects_bad_token_witness :
    serverSearchGate (some "key") "deadbeef" (some "cats") = Sum.inl 403
    ∧ apiSearchGate (some "key") (some "deadbeef") (some "cats") = Sum.inl 403
    ∧ serverDownloadGate "deadbeef" "dQw4w9WgXcQ" = Sum.inl 403 :=
  ⟨C1_access_gate_rejects_bad_token.1 (some "key") "deadbeef" (some "cats")
      (by decide) (by decide) (by decide),
   C1_access_gate_rejects_bad_token.2.1 (some "key") (some "deadbeef") (some "cats")
      (by decide),
   C1_access_gate_rejects_bad_token.2.2 "deadbeef" "dQw4w9WgXcQ" (by decide)⟩

/-- C8 counterexample: the `part_002` legacy `GET /search/:hash` handler cited
by the claim performs no query check: with a valid token and a configured API
key but a missing query it proceeds to the upstream fetch with the literal
query string `"undefined"`, instead of answering 400 with no upstream call. -/
theorem C8_counterexample_part002_missing_query_hits_upstream :
    part002SearchGate (some "APIKEY") VALID_MD5_HASH none
      = Sum.inr ("APIKEY", "undefined")
    ∧ part002SearchGate (some "APIKEY") VALID_MD5_HASH none
      ≠ Sum.inl 400 := by
  constructor
  · rfl
  · decide

/-- C8 as amended: the `server.js` search handler answers 400 with no upstream
call for every empty or missing query, but the `part_002` legacy search
handler performs no query check and, whenever the token is valid and the API
key is configured, makes the upstream call with the query coerced to a string
(`"undefined"` when missing). -/
theorem C8_amended_empty_query :
    (∀ (apiKeyEnv : Option String) (hash : String) (q : Option String),
      strFalsy q = true → serverSearchGate apiKeyEnv hash q = Sum.inl 400)
    ∧ (∀ (key : String) (q : Option String),
      part002SearchGate (some key) VALID_MD5_HASH q
        = Sum.inr (key, jsStringOfOpt q)) := by
  constructor
  · intro apiKeyEnv hash q hq
    unfold serverSearchGate
    rw [hq]
    simp only [if_true]
  · intro key q
    rfl

/-- Witness for the amended C8 at concrete inputs. -/
theorem C8_amended_empty_query_witness :
    serverSearchGate (some "key") VALID_MD5_HASH (some "") = Sum.inl 400
    ∧ part002SearchGate (some "key") VALID_MD5_HASH (some "")
      = Sum.inr ("key", "") :=
  ⟨C8_amended_empty_query.1 (some "key") VALID_MD5_HASH (some "") (by decide),
   C8_amended_empty_query.2 "key" (some "")⟩

/-- Head of a stable descending insertion: the head of `insertDesc f l` is `f`
when `f`'s bitrate ties or beats the head of `l`, else the head of `l`. -/
theorem insertDesc_head (f g : Format) (gs : List Format) :
    (insertDesc f (g :: gs)).head? =
      if bitrateOr0 g ≤ bitrateOr0 f then some f else some g := by
  unfold insertDesc
  by_cases h : bitrateOr0 g ≤ bitrateOr0 f
  · rw [if_pos h, if_pos h]
    rfl
  · rw [if_neg h, if_neg h]
    rfl

/-- The head of the stable descending sort is the first maximum-bitrate
element of the input. -/
theorem sortDescBitrate_head (fs : List Format) :
    (sortDescBitrate fs).head? = firstMaxFmt fs := by
  induction fs with
  | nil => rfl
  | cons f fs ih =>
    unfold sortDescBitrate firstMaxFmt
    rw [← ih]
    cases hsort : sortDescBitrate fs with
    | nil => rfl
    | cons g gs =>
      rw [insertDesc_head]
      rfl

/-- Unfolding lemma for `firstMaxFmt` on a cons cell. -/
theorem firstMaxFmt_cons (x : Format) (xs : List Format) :
    firstMaxFmt (x :: xs) =
      match firstMaxFmt xs with
      | none => some x
      | some g => if bitrateOr0 g ≤ bitrateOr0 x then some x else some g := rfl

/-- `firstMaxFmt` of a cons cell when the tail has no maximum. -/
theorem firstMaxFmt_cons_none (x : Format) (xs : List Format)
    (h : firstMaxFmt xs = none) : firstMaxFmt (x :: xs) = some x := by
  rw [firstMaxFmt_cons, h]

/-- `firstMaxFmt` of a cons cell when the tail has first maximum `g`. -/
theorem firstMaxFmt_cons_some (x g : Format) (xs : List Format)
    (h : firstMaxFmt xs = some g) :
    firstMaxFmt (x :: xs) =
      if bitrateOr0 g ≤ bitrateOr0 x then some x else some g := by
  rw [firstMaxFmt_cons, h]

/-- `firstMaxFmt` returns `none` only on the empty list. -/
theorem firstMaxFmt_eq_none (fs : List Format) (h : firstMaxFmt fs = none) :
    fs = [] := by
  cases fs with
  | nil => rfl
  | cons x xs =>
    exfalso
    cases hrec : firstMaxFmt xs with
    | none =>
      rw [firstMaxFmt_cons_none x xs hrec] at h
      exact Option.noConfusion h
    | some g =>
      rw [firstMaxFmt_cons_some x g xs hrec] at h
      by_cases hc : bitrateOr0 g ≤ bitrateOr0 x
      · rw [if_pos hc] at h; exact Option.noConfusion h
      · rw [if_neg hc] at h; exact Option.noConfusion h

/-- `firstMaxFmt` returns a member of the list that every member's bitrate is
bounded by. -/
theorem firstMaxFmt_is_max (fs : List Format) (f : Format)
    (h : firstMaxFmt fs = some f) :
    f ∈ fs ∧ ∀ g ∈ fs, bitrateOr0 g ≤ bitrateOr0 f := by
  induction fs generalizing f with
  | nil => exact absurd h (by simp [firstMaxFmt])
  | cons x xs ih =>
    cases hrec : firstMaxFmt xs with
    | none =>
      have hxs := firstMaxFmt_eq_none xs hrec
      subst hxs
      rw [firstMaxFmt_cons_none x [] rfl] at h
      injection h with h
      subst h
      refine ⟨List.mem_singleton.mpr rfl, ?_⟩
      intro g hg
      rw [List.mem_singleton.mp hg]
    | some g =>
      rw [firstMaxFmt_cons_some x g xs hrec] at h
      obtain ⟨hgmem, hgmax⟩ := ih g hrec
      by_cases hc : bitrateOr0 g ≤ bitrateOr0 x
      · rw [if_pos hc] at h
        injection h with h
        subst h
        refine ⟨List.mem_cons_self x xs, ?_⟩
        intro w hw
        rcases List.mem_cons.mp hw with hwx | hwxs
        · subst hwx; exact le_refl _
        · exact le_trans (hgmax w hwxs) hc
      · rw [if_neg hc] at h
        injection h with h
        subst h
        refine ⟨List.mem_cons_of_mem x hgmem, ?_⟩
        intro w hw
        rcases List.mem_cons.mp hw with hwx | hwxs
        · subst hwx; exact le_of_not_le hc
        · exact hgmax w hwxs

/-- On a tie the first encountered wins: if the head of the list already has
maximal bitrate (ties allowed), `firstMaxFmt` selects it. -/
theorem firstMaxFmt_first_wins (f : Format) (fs : List Format)
    (h : ∀ g ∈ fs, bitrateOr0 g ≤ bitrateOr0 f) :
    firstMaxFmt (f :: fs) = some f := by
  cases hrec : firstMaxFmt fs with
  | none => exact firstMaxFmt_cons_none f fs hrec
  | some g =>
    rw [firstMaxFmt_cons_some f g fs hrec]
    exact if_pos (h g (firstMaxFmt_is_max fs g hrec).1)

/-- C2 counterexample: for audio-only formats with bitrates `[64, 128, 96]`
the claim says the audio/download endpoints select the 128 kbps candidate, but
the legacy `GET /download/:hash/:videoId` handler cited by the claim
(`api/index.js` lines 157–169) selects the first format — the 64 kbps one. -/
theorem C2_counterexample_legacy_picks_first_not_max :
    legacyDownloadSelect
        [⟨some 64, "u64"⟩, ⟨some 128, "u128"⟩, ⟨some 96, "u96"⟩]
      = some ⟨some 64, "u64"⟩
    ∧ legacyDownloadSelect
        [⟨some 64, "u64"⟩, ⟨some 128, "u128"⟩, ⟨some 96, "u96"⟩]
      ≠ some ⟨some 128, "u128"⟩ := by
  constructor
  · rfl
  · decide

/-- C2 as amended: the `server.js` download handler selects exactly the first
audio-only format attaining the maximum numeric bitrate (among formats
reporting a truthy bitrate), falling back to the first audio-only format when
none reports one — in particular 128 for bitrates `[64, 128, 96]`, and on a
tie the first encountered wins; the legacy `api/index.js` download handler
instead always selects the first audio-only format returned by upstream. -/
theorem C2_amended_best_audio_selection :
    (∀ fs : List Format,
      serverBestAudio fs =
        match firstMaxFmt (fs.filter hasTruthyBitrate) with
        | some f => some f
        | none => fs.head?)
    ∧ (∀ (fs : List Format) (f : Format),
        firstMaxFmt fs = some f →
          f ∈ fs ∧ ∀ g ∈ fs, bitrateOr0 g ≤ bitrateOr0 f)
    ∧ (∀ (f : Format) (fs : List Format),
        (∀ g ∈ fs, bitrateOr0 g ≤ bitrateOr0 f) →
          firstMaxFmt (f :: fs) = some f)
    ∧ serverBestAudio [⟨some 64, "u64"⟩, ⟨some 128, "u128"⟩, ⟨some 96, "u96"⟩]
        = some ⟨some 128, "u128"⟩
    ∧ (∀ fs : List Format, legacyDownloadSelect fs = fs.head?) := by
  refine ⟨?_, firstMaxFmt_is_max, firstMaxFmt_first_wins, by decide, fun _ => rfl⟩
  intro fs
  unfold serverBestAudio
  rw [sortDescBitrate_head]

/-- Witness for the amended C2 at concrete inputs: bitrates `[64, 128, 96]`
give the 128 kbps format; a tie `[128a, 128b]` gives the first. -/
theorem C2_amended_best_audio_selection_witness :
    (firstMaxFmt [⟨some 128, "a"⟩, ⟨some 128, "b"⟩] = some ⟨some 128, "a"⟩)
    ∧ (⟨some 128, "u128"⟩ ∈
        ([⟨some 64, "u64"⟩, ⟨some 128, "u128"⟩, ⟨some 96, "u96"⟩] : List Format)) :=
  ⟨C2_amended_best_audio_selection.2.2.1 ⟨some 128, "a"⟩ [⟨some 128, "b"⟩]
      (by decide),
   (C2_amended_best_audio_selection.2.1
      [⟨some 64, "u64"⟩, ⟨some 128, "u128"⟩, ⟨some 96, "u96"⟩]
      ⟨some 128, "u128"⟩ (by decide)).1⟩

/-- C7 counterexample: for a video with no audio-only formats the claim says
the download endpoints fail with NotFound (404), but the `part_002` legacy
download handler cited by the claim has no empty-formats check and instead
throws on `undefined` and answers 500. -/
theorem C7_counterexample_legacy_empty_formats_500 :
    legacyDownloadResolve [] = Sum.inl 500
    ∧ legacyDownloadResolve [] ≠ Sum.inl 404 := by
  constructor
  · rfl
  · decide

/-- C7 as amended: with no audio-only formats the `server.js` download handler
fails with 404 (NotFound), while the `part_002` legacy download handler
answers 500. -/
theorem C7_amended_no_audio_formats :
    serverDownloadResolve [] = Sum.inl 404
    ∧ legacyDownloadResolve [] = Sum.inl 500 := by
  exact ⟨rfl, rfl⟩

/-- C6 counterexample: on an upstream item that has both a medium-resolution
thumbnail (`"m"`) and a default one (`"d"`), the `part_000` search handler
cited by the claim emits the default URL `"d"`, not the medium URL `"m"` the
claim requires when the medium variant is present. -/
theorem C6_counterexample_part000_ignores_medium_thumbnail :
    part000SearchVideos
        [⟨"vid00000001", ⟨"t", "c", "p", some ⟨"m"⟩, some ⟨"d"⟩⟩⟩]
      = some [⟨"vid00000001", "t", "c", "d"⟩]
    ∧ ("d" : String) ≠ "m" := by
  constructor
  · rfl
  · decide

/-- C6 as amended: the `server.js` search handler returns exactly one
VideoSummary per upstream item, in upstream order (pointwise at every index),
preferring the medium thumbnail URL when present and non-empty and falling
back to the default URL when the medium variant is absent; the `part_000`
handler also maps per-item in order but always uses the default thumbnail
URL even when a medium variant is present. -/
theorem C6_amended_search_mapping :
    (∀ items : List SearchItem,
      (serverSearchVideos (some items)).length = items.length)
    ∧ (∀ (items : List SearchItem) (i : Nat),
      (serverSearchVideos (some items))[i]? = (items[i]?).map serverMapItem)
    ∧ (∀ (it : SearchItem) (u : String),
      it.snippet.thumbMedium = some ⟨u⟩ → u ≠ "" →
        (serverMapItem it).thumbnail = some u)
    ∧ (∀ it : SearchItem, it.snippet.thumbMedium = none →
        (serverMapItem it).thumbnail = it.snippet.thumbDefault.map Thumb.url)
    ∧ (∀ (it : SearchItem) (t : String),
      it.snippet.thumbDefault = some ⟨t⟩ →
        part000MapItem it = some
          ⟨it.videoId, it.snippet.title, it.snippet.channelTitle, t⟩) := by
  refine ⟨?_, ?_, ?_, ?_, ?_⟩
  · intro items
    exact List.length_map items serverMapItem
  · intro items i
    exact List.getElem?_map serverMapItem items i
  · intro it u hmed hu
    unfold serverMapItem
    rw [hmed]
    show jsOrStr (some u) (it.snippet.thumbDefault.map Thumb.url) = some u
    simp only [jsOrStr]
    rw [if_neg hu]
  · intro it hmed
    unfold serverMapItem
    rw [hmed]
    rfl
  · intro it t hdef
    unfold part000MapItem
    rw [hdef]

/-- Witness for the amended C6 at a concrete item carrying both thumbnail
variants. -/
theorem C6_amended_search_mapping_witness :
    (serverSearchVideos
        (some [⟨"vid00000001", ⟨"t", "c", "p", some ⟨"m"⟩, some ⟨"d"⟩⟩⟩])).length = 1
    ∧ (serverMapItem ⟨"vid00000001", ⟨"t", "c", "p", some ⟨"m"⟩, some ⟨"d"⟩⟩⟩).thumbnail
      = some "m"
    ∧ (serverMapItem ⟨"vid00000001", ⟨"t", "c", "p", none, some ⟨"d"⟩⟩⟩).thumbnail
      = some "d"
    ∧ part000MapItem ⟨"vid00000001", ⟨"t", "c", "p", some ⟨"m"⟩, some ⟨"d"⟩⟩⟩
      = some ⟨"vid00000001", "t", "c", "d"⟩ :=
  ⟨C6_amended_search_mapping.1 [⟨"vid00000001", ⟨"t", "c", "p", some ⟨"m"⟩, some ⟨"d"⟩⟩⟩],
   C6_amended_search_mapping.2.2.1 ⟨"vid00000001", ⟨"t", "c", "p", some ⟨"m"⟩, some ⟨"d"⟩⟩⟩
      "m" rfl (by decide),
   C6_amended_search_mapping.2.2.2.1 ⟨"vid00000001", ⟨"t", "c", "p", none, some ⟨"d"⟩⟩⟩ rfl,
   C6_amended_search_mapping.2.2.2.2 ⟨"vid00000001", ⟨"t", "c", "p", some ⟨"m"⟩, some ⟨"d"⟩⟩⟩
      "d" rfl⟩

/-- C3 counterexample: the two delete statements are not wrapped in a
transaction (`sql.begin` is never used in `api/index.js`), so a failure
between them leaves the `detachFavorites` state: starting from a folder
`Rock` with two assigned Favorites, the mid-way state is not the pre-delete
state (the favorites are already detached) even though the folder still
exists. -/
theorem C3_counterexample_midway_failure_changes_state :
    detachFavorites
        ⟨[⟨1, "Rock"⟩],
         [⟨"aaaaaaaaaaa", "t1", "c1", none, some 1⟩,
          ⟨"bbbbbbbbbbb", "t2", "c2", none, some 1⟩]⟩ 1
      = ⟨[⟨1, "Rock"⟩],
         [⟨"aaaaaaaaaaa", "t1", "c1", none, none⟩,
          ⟨"bbbbbbbbbbb", "t2", "c2", none, none⟩]⟩
    ∧ detachFavorites
        ⟨[⟨1, "Rock"⟩],
         [⟨"aaaaaaaaaaa", "t1", "c1", none, some 1⟩,
          ⟨"bbbbbbbbbbb", "t2", "c2", none, some 1⟩]⟩ 1
      ≠ ⟨[⟨1, "Rock"⟩],
         [⟨"aaaaaaaaaaa", "t1", "c1", none, some 1⟩,
          ⟨"bbbbbbbbbbb", "t2", "c2", none, some 1⟩]⟩ := by
  constructor
  · rfl
  · decide

/-- C3 as amended: a completed folder delete keeps every Favorite (same row
count, same videoId, folder assignment nulled exactly for the deleted folder)
and removes the folder, and no failure mode — neither the mid-way
`detachFavorites` state nor the final state — leaves a Favorite referencing a
non-existent Folder (given the store starts referentially intact); however
the operation is not all-or-nothing: a failure between the two statements
leaves the favorites already detached while the folder row still exists,
which differs from the pre-delete state whenever some Favorite was assigned
to the folder. -/
theorem C3_amended_folder_delete :
    ∀ (db : DB) (fid : Nat),
      ((deleteFolderFull db fid).favorites.length = db.favorites.length)
      ∧ (∀ fav ∈ db.favorites, ∃ fav2 ∈ (deleteFolderFull db fid).favorites,
          fav2.videoId = fav.videoId ∧
          fav2.folderId = (if fav.folderId = some fid then none else fav.folderId))
      ∧ (∀ fo ∈ (deleteFolderFull db fid).folders, fo.id ≠ fid)
      ∧ ((detachFavorites db fid).folders = db.folders)
      ∧ (noDangling db →
          noDangling (detachFavorites db fid) ∧ noDangling (deleteFolderFull db fid)) := by
  intro db fid
  refine ⟨?_, ?_, ?_, rfl, ?_⟩
  · exact List.length_map db.favorites _
  · intro fav hmem
    refine ⟨if fav.folderId = some fid then { fav with folderId := none } else fav,
      List.mem_map_of_mem _ hmem, ?_⟩
    by_cases hf : fav.folderId = some fid
    · rw [if_pos hf, if_pos hf]
      exact ⟨rfl, rfl⟩
    · rw [if_neg hf, if_neg hf]
      exact ⟨rfl, rfl⟩
  · intro fo hmem
    have := List.mem_filter.mp hmem
    exact of_decide_eq_true this.2
  · intro hnd
    have hmid : noDangling (detachFavorites db fid) := by
      intro fav2 hmem2 fid2 hfid2
      rcases List.mem_map.mp hmem2 with ⟨fav, hmem, heq⟩
      by_cases hf : fav.folderId = some fid
      · rw [if_pos hf] at heq
        subst heq
        exact absurd hfid2 (by simp)
      · rw [if_neg hf] at heq
        subst heq
        exact hnd fav hmem fid2 hfid2
    refine ⟨hmid, ?_⟩
    intro fav2 hmem2 fid2 hfid2
    rcases List.mem_map.mp hmem2 with ⟨fav, hmem, heq⟩
    by_cases hf : fav.folderId = some fid
    · rw [if_pos hf] at heq
      subst heq
      exact absurd hfid2 (by simp)
    · rw [if_neg hf] at heq
      subst heq
      have hne : fid2 ≠ fid := by
        intro hcontra
        subst hcontra
        rw [hfid2] at hf
        exact hf rfl
      rcases hnd fav hmem fid2 hfid2 with ⟨fo, hfo, hfoid⟩
      refine ⟨fo, ?_, hfoid⟩
      exact List.mem_filter.mpr ⟨hfo, decide_eq_true (by rw [hfoid]; exact hne)⟩

/-- Witness for the amended C3 at the `Rock`-folder store with two assigned
Favorites. -/
theorem C3_amended_folder_delete_witness :
    (deleteFolderFull
        ⟨[⟨1, "Rock"⟩],
         [⟨"aaaaaaaaaaa", "t1", "c1", none, some 1⟩,
          ⟨"bbbbbbbbbbb", "t2", "c2", none, some 1⟩]⟩ 1).favorites.length = 2
    ∧ noDangling (deleteFolderFull
        ⟨[⟨1, "Rock"⟩],
         [⟨"aaaaaaaaaaa", "t1", "c1", none, some 1⟩,
          ⟨"bbbbbbbbbbb", "t2", "c2", none, some 1⟩]⟩ 1) :=
  ⟨(C3_amended_folder_delete
      ⟨[⟨1, "Rock"⟩],
       [⟨"aaaaaaaaaaa", "t1", "c1", none, some 1⟩,
        ⟨"bbbbbbbbbbb", "t2", "c2", none, some 1⟩]⟩ 1).1,
   ((C3_amended_folder_delete
      ⟨[⟨1, "Rock"⟩],
       [⟨"aaaaaaaaaaa", "t1", "c1", none, some 1⟩,
        ⟨"bbbbbbbbbbb", "t2", "c2", none, some 1⟩]⟩ 1).2.2.2.2 (by
      intro fav hmem fid hfid
      refine ⟨⟨1, "Rock"⟩, by simp, ?_⟩
      simp only [List.mem_cons, List.not_mem_nil, or_false] at hmem
      rcases hmem with h | h
      · rw [h] at hfid
        injection hfid with hfid
      · rw [h] at hfid
        injection hfid with hfid)).2⟩

/-- Unfolding of `createFolderB` at a present name. -/
theorem createFolderB_some (folders : List Folder) (newId : Nat) (n : String) :
    createFolderB folders newId (some n) =
      if jsTrim n = "" then Sum.inl 400
      else if folders.any (fun fo => fo.name == jsTrim n) then Sum.inl 409
      else Sum.inr (folders ++ [⟨newId, jsTrim n⟩]) := rfl

/-- Unfolding of `createFolderC` at a present name. -/
theorem createFolderC_some (folders : List Folder) (newId : Nat) (n : String) :
    createFolderC folders newId (some n) =
      if jsTrim n = "" then Sum.inl 400
      else if folders.any
          (fun fo => jsToLower fo.name == jsToLower (jsTrim n)) then Sum.inl 409
      else Sum.inr (folders ++ [⟨newId, jsTrim n⟩]) := rfl

/-- Unfolding of `renameFolderC` at a present name. -/
theorem renameFolderC_some (folders : List Folder) (fid : Nat) (n : String) :
    renameFolderC folders fid (some n) =
      if jsTrim n = "" then Sum.inl 400
      else if !(folders.any fun fo => fo.id == fid) then Sum.inl 404
      else if folders.any (fun fo =>
          jsToLower fo.name == jsToLower (jsTrim n) && fo.id != fid) then
        Sum.inl 409
      else Sum.inr (folders.map fun fo =>
        if fo.id = fid then { fo with name := jsTrim n } else fo) := rfl

/-- C4 counterexample: re-adding an existing videoId with fresh metadata
through the `part_001` `api.post('/favorites')` handler cited by the claim
updates only the folder assignment — the stored title (and channel,
thumbnail) keeps its old value instead of being updated in place. -/
theorem C4_counterexample_part001_upsert_keeps_metadata :
    upsertFavorite001
        [⟨"aaaaaaaaaaa", "oldT", "oldC", some "oldTh", some 1⟩]
        ⟨"aaaaaaaaaaa", "newT", "newC", some "newTh", some 2⟩
      = [⟨"aaaaaaaaaaa", "oldT", "oldC", some "oldTh", some 2⟩]
    ∧ ("oldT" : String) ≠ "newT" := by
  constructor
  · rfl
  · decide

/-- C4 as amended: when the videoId already exists, both upserts keep the row
count unchanged (no duplicate, no error — the handler proceeds to a 201);
the variant-B upsert leaves a row carrying the new folderId, title, channel
and thumbnail; the `part_001` upsert updates only the folderId, leaving every
stored (videoId, title, channel, thumbnail) tuple exactly as before; and the
variant-B upsert preserves videoId uniqueness of the store on any input. -/
theorem C4_amended_favorite_upsert :
    (∀ (favs : List Favorite) (f : Favorite),
      favs.any (fun g => g.videoId == f.videoId) = true →
        (upsertFavoriteB favs f).length = favs.length
        ∧ (∃ g ∈ upsertFavoriteB favs f, g.videoId = f.videoId
            ∧ g.title = f.title ∧ g.channel = f.channel
            ∧ g.thumbnail = f.thumbnail ∧ g.folderId = f.folderId)
        ∧ (upsertFavorite001 favs f).length = favs.length
        ∧ (upsertFavorite001 favs f).map
            (fun g => (g.videoId, g.title, g.channel, g.thumbnail))
          = favs.map (fun g => (g.videoId, g.title, g.channel, g.thumbnail)))
    ∧ (∀ (favs : List Favorite) (f : Favorite),
      (favs.map Favorite.videoId).Nodup →
        ((upsertFavoriteB favs f).map Favorite.videoId).Nodup) := by
  constructor
  · intro favs f hany
    refine ⟨?_, ?_, ?_, ?_⟩
    · unfold upsertFavoriteB
      rw [if_pos hany, List.length_map]
    · rcases List.any_eq_true.mp hany with ⟨g, hgmem, hgeq⟩
      have hgid : g.videoId = f.videoId := eq_of_beq hgeq
      unfold upsertFavoriteB
      rw [if_pos hany]
      refine ⟨{ g with
          title := f.title
          channel := f.channel
          thumbnail := f.thumbnail
          folderId := f.folderId }, ?_, hgid, rfl, rfl, rfl, rfl⟩
      have himg : (fun g2 => if g2.videoId = f.videoId then
          { g2 with
            title := f.title
            channel := f.channel
            thumbnail := f.thumbnail
            folderId := f.folderId }
          else g2) g
          = { g with
              title := f.title
              channel := f.channel
              thumbnail := f.thumbnail
              folderId := f.folderId } := by
        simp only [if_pos hgid]
      rw [← himg]
      exact List.mem_map_of_mem _ hgmem
    · unfold upsertFavorite001
      rw [if_pos hany, List.length_map]
    · unfold upsertFavorite001
      rw [if_pos hany, List.map_map]
      refine List.map_congr_left ?_
      intro g hgmem
      by_cases hgid : g.videoId = f.videoId
      · simp only [Function.comp, if_pos hgid]
      · simp only [Function.comp, if_neg hgid]
  · intro favs f hnd
    unfold upsertFavoriteB
    by_cases hany : favs.any (fun g => g.videoId == f.videoId) = true
    · rw [if_pos hany, List.map_map]
      have hproj : favs.map (Favorite.videoId ∘ fun g =>
          if g.videoId = f.videoId then
            { g with
              title := f.title
              channel := f.channel
              thumbnail := f.thumbnail
              folderId := f.folderId }
          else g)
          = favs.map Favorite.videoId := by
        refine List.map_congr_left ?_
        intro g hgmem
        by_cases hgid : g.videoId = f.videoId
        · simp only [Function.comp, if_pos hgid]
        · simp only [Function.comp, if_neg hgid]
      rw [hproj]
      exact hnd
    · rw [if_neg hany, List.map_append]
      rw [List.nodup_append]
      refine ⟨hnd, List.nodup_singleton _, ?_⟩
      intro v hv hvf
      rcases List.mem_map.mp hv with ⟨g, hgmem, hgid⟩
      have hne : g.videoId ≠ f.videoId := by
        intro hcontra
        exact hany (List.any_eq_true.mpr ⟨g, hgmem, beq_iff_eq.mpr hcontra⟩)
      have hvef : v = f.videoId := by
        simpa using hvf
      rw [← hgid] at hvef
      exact hne hvef

/-- Witness for the amended C4 at a one-row store whose videoId is re-added
with fresh metadata. -/
theorem C4_amended_favorite_upsert_witness :
    (upsertFavoriteB
        [⟨"aaaaaaaaaaa", "oldT", "oldC", some "oldTh", some 1⟩]
        ⟨"aaaaaaaaaaa", "newT", "newC", some "newTh", some 2⟩).length = 1
    ∧ (∃ g ∈ upsertFavoriteB
        [⟨"aaaaaaaaaaa", "oldT", "oldC", some "oldTh", some 1⟩]
        ⟨"aaaaaaaaaaa", "newT", "newC", some "newTh", some 2⟩,
        g.videoId = "aaaaaaaaaaa" ∧ g.title = "newT" ∧ g.channel = "newC"
        ∧ g.thumbnail = some "newTh" ∧ g.folderId = some 2) :=
  ⟨((C4_amended_favorite_upsert.1
      [⟨"aaaaaaaaaaa", "oldT", "oldC", some "oldTh", some 1⟩]
      ⟨"aaaaaaaaaaa", "newT", "newC", some "newTh", some 2⟩) (by decide)).1,
   ((C4_amended_favorite_upsert.1
      [⟨"aaaaaaaaaaa", "oldT", "oldC", some "oldTh", some 1⟩]
      ⟨"aaaaaaaaaaa", "newT", "newC", some "newTh", some 2⟩) (by decide)).2.1⟩

/-- C5 counterexample: with a folder named `Rock` already present, creating
`rock` through the variant-B `api.post('/folders')` handler cited by the
claim succeeds and inserts a second folder (the case-sensitive `UNIQUE`
constraint does not fire), instead of failing with Conflict. -/
theorem C5_counterexample_variantB_creates_rock_beside_Rock :
    createFolderB [⟨1, "Rock"⟩] 2 (some "rock")
      = Sum.inr [⟨1, "Rock"⟩, ⟨2, "rock"⟩]
    ∧ createFolderB [⟨1, "Rock"⟩] 2 (some "rock") ≠ Sum.inl 409 := by
  constructor
  · decide
  · decide

/-- C5 as amended: the variant-C handlers with an explicit `LOWER(name)` check
do fail with Conflict (409) on any case-insensitive collision without adding
or renaming anything, both on create and on rename of an existing folder; but
the variant-B create handler relies on the case-sensitive `UNIQUE` constraint,
so a name that collides with an existing folder only up to letter case is
accepted and a second folder is added. -/
theorem C5_amended_folder_name_uniqueness :
    (∀ (folders : List Folder) (newId : Nat) (n : String),
      jsTrim n ≠ "" →
      (∃ fo ∈ folders, jsToLower fo.name = jsToLower (jsTrim n)) →
        createFolderC folders newId (some n) = Sum.inl 409)
    ∧ (∀ (folders : List Folder) (fid : Nat) (n : String),
      jsTrim n ≠ "" → (∃ fo ∈ folders, fo.id = fid) →
      (∃ fo ∈ folders, jsToLower fo.name = jsToLower (jsTrim n) ∧ fo.id ≠ fid) →
        renameFolderC folders fid (some n) = Sum.inl 409)
    ∧ (∀ (folders : List Folder) (newId : Nat) (n : String),
      jsTrim n ≠ "" → (∀ fo ∈ folders, fo.name ≠ jsTrim n) →
        createFolderB folders newId (some n)
          = Sum.inr (folders ++ [⟨newId, jsTrim n⟩])) := by
  refine ⟨?_, ?_, ?_⟩
  · intro folders newId n hne hcol
    rw [createFolderC_some, if_neg hne]
    rcases hcol with ⟨fo, hmem, hlow⟩
    have hcond : (jsToLower fo.name == jsToLower (jsTrim n)) = true :=
      beq_iff_eq.mpr hlow
    rw [if_pos (List.any_eq_true.mpr ⟨fo, hmem, hcond⟩)]
  · intro folders fid n hne hex hcol
    rw [renameFolderC_some, if_neg hne]
    rcases hex with ⟨fo0, hmem0, hid0⟩
    have hid0b : (fo0.id == fid) = true := beq_iff_eq.mpr hid0
    have hexists : (folders.any fun fo => fo.id == fid) = true :=
      List.any_eq_true.mpr ⟨fo0, hmem0, hid0b⟩
    rw [hexists]
    simp only [Bool.not_true, Bool.false_eq_true, if_false]
    rcases hcol with ⟨fo, hmem, hlow, hid⟩
    have hcond : (jsToLower fo.name == jsToLower (jsTrim n) && fo.id != fid)
        = true := by
      rw [Bool.and_eq_true, beq_iff_eq, bne_iff_ne]
      exact ⟨hlow, hid⟩
    rw [if_pos (List.any_eq_true.mpr ⟨fo, hmem, hcond⟩)]
  · intro folders newId n hne hnocol
    rw [createFolderB_some, if_neg hne]
    have hnone : (folders.any fun fo => fo.name == jsTrim n) = false := by
      rw [← Bool.not_eq_true, List.any_eq_true]
      rintro ⟨fo, hmem, heq⟩
      exact hnocol fo hmem (eq_of_beq heq)
    rw [hnone]
    simp only [Bool.false_eq_true, if_false]

/-- Witness for the amended C5: `Rock` collides with `rock` case-insensitively
in variant C (409 on create, and on rename of a second folder `Pop`), while
variant B inserts the second folder. -/
theorem C5_amended_folder_name_uniqueness_witness :
    createFolderC [⟨1, "Rock"⟩] 2 (some "rock") = Sum.inl 409
    ∧ renameFolderC [⟨1, "Rock"⟩, ⟨2, "Pop"⟩] 2 (some "rock") = Sum.inl 409
    ∧ createFolderB [⟨1, "Rock"⟩] 2 (some "rock")
      = Sum.inr [⟨1, "Rock"⟩, ⟨2, "rock"⟩] :=
  ⟨C5_amended_folder_name_uniqueness.1 [⟨1, "Rock"⟩] 2 "rock" (by decide)
      ⟨⟨1, "Rock"⟩, by simp, by decide⟩,
   C5_amended_folder_name_uniqueness.2.1 [⟨1, "Rock"⟩, ⟨2, "Pop"⟩] 2 "rock"
      (by decide) ⟨⟨2, "Pop"⟩, by simp, rfl⟩
      ⟨⟨1, "Rock"⟩, by simp, by decide, by decide⟩,
   C5_amended_folder_name_uniqueness.2.2 [⟨1, "Rock"⟩] 2 "rock" (by decide)
      (by
        intro fo hmem
        simp only [List.mem_cons, List.not_mem_nil, or_false] at hmem
        rw [hmem]
        decide)⟩

/-- Inversion of a successful `addFavoriteB`: the guards passed, so the
inserted id is valid and the result is the upsert. -/
theorem addFavoriteB_inr (favs : List Favorite)
    (id title channel thumbnail : Option String) (folderId : Option Nat)
    (favs2 : List Favorite)
    (h : addFavoriteB favs id title channel thumbnail folderId = Sum.inr favs2) :
    validateID (jsStringOfOpt id) = true
    ∧ favs2 = upsertFavoriteB favs
        ⟨jsStringOfOpt id, jsStringOfOpt title, jsStringOfOpt channel,
         jsOptStr thumbnail, jsOptNat folderId⟩ := by
  unfold addFavoriteB at h
  by_cases h1 : (strFalsy id || strFalsy title || strFalsy channel) = true
  · rw [if_pos h1] at h
    exact absurd h (by simp)
  · rw [if_neg h1] at h
    by_cases h2 : validateID (jsStringOfOpt id) = true
    · rw [h2] at h
      simp only [Bool.not_true, Bool.false_eq_true, if_false] at h
      injection h with h
      exact ⟨h2, h.symm⟩
    · rw [Bool.not_eq_true] at h2
      rw [h2] at h
      simp only [Bool.not_false, if_true] at h
      exact absurd h (by simp)

/-- The variant-B upsert preserves id validity when the incoming id is
valid. -/
theorem upsertFavoriteB_preserves_valid (favs : List Favorite) (f : Favorite)
    (hf : validateID f.videoId = true) (hfavs : favsValid favs) :
    favsValid (upsertFavoriteB favs f) := by
  unfold upsertFavoriteB
  by_cases hany : favs.any (fun g => g.videoId == f.videoId) = true
  · rw [if_pos hany]
    intro g2 hmem2
    rcases List.mem_map.mp hmem2 with ⟨g, hgmem, heq⟩
    by_cases hgid : g.videoId = f.videoId
    · rw [if_pos hgid] at heq
      subst heq
      exact hfavs g hgmem
    · rw [if_neg hgid] at heq
      subst heq
      exact hfavs g hgmem
  · rw [if_neg hany]
    intro g2 hmem2
    rcases List.mem_append.mp hmem2 with hmem | hmem
    · exact hfavs g2 hmem
    · rw [List.mem_singleton.mp hmem]
      exact hf

/-- One variant-B request preserves validity of all stored video ids. -/
theorem applyOp_preserves_valid (db : DB) (op : OpB)
    (h : favsValid db.favorites) : favsValid (applyOp db op).favorites := by
  cases op with
  | createFolder newId name =>
    simp only [applyOp]
    cases createFolderB db.folders newId name with
    | inl s => exact h
    | inr fs => exact h
  | renameFolder fid name =>
    simp only [applyOp]
    cases renameFolderB db.folders fid name with
    | inl s => exact h
    | inr fs => exact h
  | deleteFolder fid =>
    simp only [applyOp, deleteFolderFull, removeFolder, detachFavorites]
    intro g2 hmem2
    rcases List.mem_map.mp hmem2 with ⟨g, hgmem, heq⟩
    by_cases hgid : g.folderId = some fid
    · rw [if_pos hgid] at heq
      subst heq
      exact h g hgmem
    · rw [if_neg hgid] at heq
      subst heq
      exact h g hgmem
  | addFavorite id title channel thumbnail folderId =>
    simp only [applyOp]
    cases hcall : addFavoriteB db.favorites id title channel thumbnail folderId with
    | inl s => exact h
    | inr favs2 =>
      rcases addFavoriteB_inr db.favorites id title channel thumbnail folderId
        favs2 hcall with ⟨hvalid, heq⟩
      show favsValid favs2
      rw [heq]
      exact upsertFavoriteB_preserves_valid db.favorites _ hvalid h
  | deleteFavorite videoId =>
    simp only [applyOp]
    intro g hmem
    exact h g (List.mem_filter.mp hmem).1

/-- C10: the variant-B add-favorite handler rejects every syntactically
invalid videoId with 400 before touching the store, and consequently after
any sequence of variant-B requests from a fresh store every persisted
videoId is a syntactically valid YouTube video id. -/
theorem C10_favorites_ids_validated :
    (∀ (favs : List Favorite)
        (id title channel thumbnail : Option String) (folderId : Option Nat),
      validateID (jsStringOfOpt id) = false →
        addFavoriteB favs id title channel thumbnail folderId = Sum.inl 400)
    ∧ (∀ ops : List OpB, favsValid (runOps ops).favorites) := by
  constructor
  · intro favs id title channel thumbnail folderId hbad
    unfold addFavoriteB
    by_cases h1 : (strFalsy id || strFalsy title || strFalsy channel) = true
    · rw [if_pos h1]
    · rw [if_neg h1, hbad]
      simp only [Bool.not_false, if_true]
  · have key : ∀ (ops : List OpB) (db : DB), favsValid db.favorites →
        favsValid ((ops.foldl applyOp db).favorites) := by
      intro ops
      induction ops with
      | nil => intro db h; exact h
      | cons op rest ih =>
        intro db h
        exact ih (applyOp db op) (applyOp_preserves_valid db op h)
    intro ops
    refine key ops emptyDB ?_
    intro f hf
    exact absurd hf (List.not_mem_nil f)

/-- Witness for C10: the nine-character id `"too_short"` is rejected with 400;
a fresh store followed by a valid insert stays all-valid. -/
theorem C10_favorites_ids_validated_witness :
    addFavoriteB [] (some "too_short") (some "t") (some "c") none none
      = Sum.inl 400
    ∧ favsValid (runOps
        [OpB.addFavorite (some "dQw4w9WgXcQ") (some "t") (some "c") none none]).favorites :=
  ⟨C10_favorites_ids_validated.1 [] (some "too_short") (some "t") (some "c")
      none none (by decide),
   C10_favorites_ids_validated.2
      [OpB.addFavorite (some "dQw4w9WgXcQ") (some "t") (some "c") none none]⟩

/-- C9: the stream handler registers listeners only for the upstream stream's
`error` and `end` events, so when the client disconnects mid-stream (headers
sent, upstream open) the upstream ytdl fetch is NOT cancelled: the upstream
handle remains open after the client connection has closed, contradicting the
claim that it is released promptly. -/
theorem C9_client_disconnect_leaves_upstream_open :
    (dispatch ⟨true, true⟩ StreamEvent.clientClosed).upstreamOpen = true
    ∧ (streamHandlerListeners.filter
        fun p => p.1 == StreamEvent.clientClosed) = [] := by
  constructor
  · rfl
  · rfl
